import Mathlib

/-!
Verification development for the hand-eye calibration control widget
(moveit_calibration_gui/handeye_calibration_rviz_plugin/src/handeye_control_widget.cpp).

The development shallowly embeds the sample-collection and solve-orchestration
logic of ControlTabWidget: the paired transform store (effector_wrt_world_,
object_wrt_sensor_), the rotation-diversity admissibility check of
takeTransformSamples, YAML sample persistence, the joint-state bookkeeping, the
solver invocation of solveCameraRobotPose, and the auto-calibration progress
machinery (computePlan / computeExecution / executeFinished).

Transforms are embedded over the rationals.  The C++ code works with IEEE
doubles; every operation modelled here (matrix products, transposes, traces,
quaternion-to-matrix conversion, serialization) is a composition of field
operations, so the rational embedding mirrors the real-number semantics of the
source exactly, with floating-point rounding out of scope.

Rotation-angle comparisons: the source compares
Eigen::AngleAxisd(R).angle() < MIN_ROTATION with MIN_ROTATION = pi/36 (5
degrees).  For a rotation matrix R the Eigen angle is arccos((trace R - 1)/2),
ranging over [0, pi].  Since arccos is strictly decreasing, the comparison
angle < pi/36 is equivalent to trace R > 1 + 2 * cos(pi/36).  The constant
1 + 2 * cos(pi/36) is irrational, so the embedding carries it as an explicit
rational-valued parameter (named minRotTrace below); every theorem about the
admissibility check is proved for all values of this parameter.
-/

/-- 3x3 rational matrix, the rotation block of an Eigen isometry. -/
abbrev Mat3 := Matrix (Fin 3) (Fin 3) ℚ

/-- 3-vector, the translation block of an Eigen isometry. -/
abbrev Vec3 := Fin 3 → ℚ

/-- A quaternion as carried by geometry_msgs Transform.rotation (fields x y z w). -/
structure Quat where
  x : ℚ
  y : ℚ
  z : ℚ
  w : ℚ
deriving DecidableEq

/-- Squared norm of a quaternion. -/
def quatNormSq (q : Quat) : ℚ :=
  q.x * q.x + q.y * q.y + q.z * q.z + q.w * q.w

/-- Eigen Quaternion::toRotationMatrix, exactly the formula Eigen applies (it
assumes a unit quaternion and performs no normalization of its own).  This is
the conversion performed inside tf2::transformToEigen. -/
def quatToRot (q : Quat) : Mat3 :=
  let tx := 2 * q.x
  let ty := 2 * q.y
  let tz := 2 * q.z
  let twx := tx * q.w
  let twy := ty * q.w
  let twz := tz * q.w
  let txx := tx * q.x
  let txy := ty * q.x
  let txz := tz * q.x
  let tyy := ty * q.y
  let tyz := tz * q.y
  let tzz := tz * q.z
  Matrix.of ![![1 - (tyy + tzz), txy - twz, txz + twy],
              ![txy + twz, 1 - (txx + tzz), tyz - twx],
              ![txz - twy, tyz + twx, 1 - (txx + tyy)]]

/-- Rotation matrix of the normalized quaternion q / |q|.  Every entry of
quatToRot is a constant plus a quadratic form in the components, so
normalization divides each quadratic term by the squared norm; this keeps the
definition inside the rationals.  This is what tf2::Quaternion::normalize
followed by the Eigen conversion produces, i.e. the projection of the rotation
to the nearest unit quaternion demanded by the specification. -/
def quatToRotOfNormalized (q : Quat) : Mat3 :=
  let n := quatNormSq q
  let tx := 2 * q.x
  let ty := 2 * q.y
  let tz := 2 * q.z
  let twx := tx * q.w / n
  let twy := ty * q.w / n
  let twz := tz * q.w / n
  let txx := tx * q.x / n
  let txy := ty * q.x / n
  let txz := tz * q.x / n
  let tyy := ty * q.y / n
  let tyz := tz * q.y / n
  let tzz := tz * q.z / n
  Matrix.of ![![1 - (tyy + tzz), txy - twz, txz + twy],
              ![txy + twz, 1 - (txx + tzz), tyz - twx],
              ![txz - twy, tyz + twx, 1 - (txx + tyy)]]

/-- Rigid transform as stored in the widget (Eigen::Isometry3d): a 3x3 linear
block and a translation vector; the affine bottom row (0 0 0 1) is implicit.
Every operation the source file performs reads only these two blocks. -/
structure Iso where
  lin : Mat3
  trans : Vec3

instance : DecidableEq Iso := fun a b =>
  decidable_of_iff (a.lin = b.lin ∧ a.trans = b.trans)
    (by cases a; cases b; simp)

/-- Composition of isometries, Eigen operator* on Isometry3d. -/
def Iso.mul (a b : Iso) : Iso :=
  ⟨a.lin * b.lin, a.lin.mulVec b.trans + a.trans⟩

/-- Eigen Isometry3d::inverse(): the linear block is transposed and the
translation becomes the negated rotated translation. -/
def Iso.inverse (a : Iso) : Iso :=
  ⟨a.lin.transpose, -(a.lin.transpose.mulVec a.trans)⟩

/-- The identity transform (Eigen::Isometry3d::Identity()), the initial value
of camera_robot_pose_. -/
def isoId : Iso :=
  ⟨Matrix.of ![![1, 0, 0], ![0, 1, 0], ![0, 0, 1]], ![0, 0, 0]⟩

/-- A geometry_msgs TransformStamped as returned by tf_buffer_->lookupTransform:
a quaternion and a translation. -/
structure TfMsg where
  q : Quat
  t : Vec3
deriving DecidableEq

/-- tf2::transformToEigen: quaternion converted by the Eigen formula (no
normalization), translation copied. -/
def msgToEigen (m : TfMsg) : Iso :=
  ⟨quatToRot m.q, m.t⟩

/-- The rejection test of takeTransformSamples: the source computes
Eigen::AngleAxisd(rel).angle() < MIN_ROTATION; under the strictly decreasing
arccos this is trace rel > minRotTrace with minRotTrace standing for
1 + 2 * cos(pi/36) (see the file header). -/
def rotTooSimilar (minRotTrace : ℚ) (rel : Mat3) : Bool :=
  decide (minRotTrace < rel.trace)

/-- ControlTabWidget::PLANNING_RESULT, the result codes set by computePlan and
computeExecution and dispatched by planFinished. -/
inductive PlanningResult where
  | SUCCESS
  | FAILURE_NO_JOINT_STATE
  | FAILURE_INVALID_JOINT_STATE
  | FAILURE_NO_PSM
  | FAILURE_NO_MOVE_GROUP
  | FAILURE_WRONG_MOVE_GROUP
  | FAILURE_PLAN_FAILED
deriving DecidableEq

/-- mhc::SensorMountType. -/
inductive SensorMountType where
  | EYE_TO_HAND
  | EYE_IN_HAND
deriving DecidableEq

/-- The mutable state of ControlTabWidget that the core logic reads and
writes: the two parallel pose-sample sequences, the recorded joint states, the
progress bar (value and maximum), the stored calibration result
(camera_robot_pose_ plus the reprojection-error label), the mount type and the
latest planning result.  The progress value is an Int because
QProgressBar::reset leaves the bar at minimum - 1 = -1. -/
structure WidgetState where
  effector_wrt_world : List Iso
  object_wrt_sensor : List Iso
  joint_names : List String
  joint_states : List (List ℚ)
  auto_progress_value : ℤ
  auto_progress_max : ℕ
  camera_robot_pose : Iso
  reprojection_error_label : String
  sensor_mount_type : SensorMountType
  planning_res : PlanningResult

/-- The state set up by the ControlTabWidget constructor (empty stores,
identity pose, progress bar at 0 of 0). -/
def initialWidgetState : WidgetState :=
  { effector_wrt_world := []
    object_wrt_sensor := []
    joint_names := []
    joint_states := []
    auto_progress_value := 0
    auto_progress_max := 0
    camera_robot_pose := isoId
    reprojection_error_label := "Reprojection error: N/A"
    sensor_mount_type := SensorMountType.EYE_TO_HAND
    planning_res := PlanningResult.SUCCESS }

/-- ProgressBarWidget::setValue, which forwards to QProgressBar::setValue.  Qt
ignores a value outside [minimum, maximum] unless the range is (0, 0); the
minimum is always 0 here. -/
def progressSetValue (mx : ℕ) (cur v : ℤ) : ℤ :=
  if (v > (mx : ℤ) ∨ v < 0) ∧ mx ≠ 0 then cur else v

/-- ProgressBarWidget::setMax, which forwards to QProgressBar::setMaximum.  Qt
resets the bar (value becomes minimum - 1 = -1) when the current value falls
outside the new range. -/
def progressSetMax (s : WidgetState) (m : ℕ) : WidgetState :=
  { s with auto_progress_max := m
           auto_progress_value :=
             if s.auto_progress_value > (m : ℤ) ∨ s.auto_progress_value < 0 then -1
             else s.auto_progress_value }

/-- ControlTabWidget::checkJointStates: both lists non-empty and every recorded
joint-value vector has the same length as the joint-name list. -/
def checkJointStates (s : WidgetState) : Bool :=
  if s.joint_names.isEmpty || s.joint_states.isEmpty then false
  else s.joint_states.all (fun st => st.length == s.joint_names.length)

/-- ControlTabWidget::takeTransformSamples.  The input is the result of the
two tf lookups (none models a tf2::TransformException, in which case the
function returns false having stored nothing).  The candidate transforms are
converted to Eigen form first (lines 375-377); the rotation-diversity loops
then run against the two stored streams with an early return on the first
too-similar prior.  The quaternion renormalization of the source (lines
401-408) writes back only into the local TransformStamped copies that feed
addPoseSampleToTreeView; the Eigen transforms pushed into the store are the
ones converted before that step, and that is what this embedding stores. -/
def takeTransformSamples (minRotTrace : ℚ) (s : WidgetState)
    (lookup : Option (TfMsg × TfMsg)) : Bool × WidgetState :=
  match lookup with
  | none => (false, s)
  | some (camera_to_object_tf, base_to_eef_tf) =>
    let base_to_eef_eig := msgToEigen base_to_eef_tf
    let camera_to_object_eig := msgToEigen camera_to_object_tf
    if s.effector_wrt_world.any
        (fun prior_tf => rotTooSimilar minRotTrace (base_to_eef_eig.inverse.mul prior_tf).lin) then
      (false, s)
    else if s.object_wrt_sensor.any
        (fun prior_tf => rotTooSimilar minRotTrace (camera_to_object_eig.inverse.mul prior_tf).lin) then
      (false, s)
    else
      (true,
       { s with effector_wrt_world := s.effector_wrt_world ++ [base_to_eef_eig]
                object_wrt_sensor := s.object_wrt_sensor ++ [camera_to_object_eig] })

/-- The admissibility condition as the specification words it for one stream:
the relative rotation inverse(prior) * candidate has angle at least
MIN_ROTATION, rendered through the trace correspondence of the file header
(angle at least pi/36 iff trace at most 1 + 2 cos(pi/36)). -/
def relAngleAtLeastMin (minRotTrace : ℚ) (prior cand : Iso) : Prop :=
  (prior.inverse.mul cand).lin.trace ≤ minRotTrace

/-- One record of the sample file: a YAML mapping with keys effector_wrt_world
and object_wrt_sensor, each a flat 16-element row-major 4x4 matrix. -/
structure SampleRecord where
  effector_wrt_world : List ℚ
  object_wrt_sensor : List ℚ
deriving DecidableEq

/-- A record of the sample file as seen by the load loop before conversion:
each field is the result of the YAML as-vector-of-double conversion, none
modelling a YAML::Exception (missing key or malformed value). -/
structure RawRecord where
  effField : Option (List ℚ)
  objField : Option (List ℚ)
deriving DecidableEq

/-- A well-formed record reinterpreted as raw input for the load loop. -/
def SampleRecord.toRaw (r : SampleRecord) : RawRecord :=
  ⟨some r.effector_wrt_world, some r.object_wrt_sensor⟩

/-- The 16 coefficients (y, x) of the 4x4 Isometry3d matrix in row-major
order, exactly the nested loop of saveSamplesBtnClicked; the bottom row of an
Isometry3d is 0 0 0 1. -/
def isoToRowMajor (a : Iso) : List ℚ :=
  [a.lin 0 0, a.lin 0 1, a.lin 0 2, a.trans 0,
   a.lin 1 0, a.lin 1 1, a.lin 1 2, a.trans 1,
   a.lin 2 0, a.lin 2 1, a.lin 2 2, a.trans 2,
   0, 0, 0, 1]

/-- Eigen::Map of a row-major 4x4 double buffer into an Isometry3d, as in
loadSamplesBtnClicked: coefficient (y, x) is read from index 4 * y + x.  A
well-formed file supplies exactly 16 values; the source performs no length
check (a shorter vector is undefined behavior in C++), so out-of-range reads
are totalized to 0 here. -/
def isoFromRowMajor (l : List ℚ) : Iso :=
  ⟨Matrix.of ![![l.getD 0 0, l.getD 1 0, l.getD 2 0],
               ![l.getD 4 0, l.getD 5 0, l.getD 6 0],
               ![l.getD 8 0, l.getD 9 0, l.getD 10 0]],
    ![l.getD 3 0, l.getD 7 0, l.getD 11 0]⟩

/-- The serialization loop of saveSamplesBtnClicked: one record per index of
the two (equal-length) sequences, each transform emitted as its 16 row-major
coefficients. -/
def serializeSamples : List Iso → List Iso → List SampleRecord
  | e :: es, o :: os => ⟨isoToRowMajor e, isoToRowMajor o⟩ :: serializeSamples es os
  | _, _ => []

/-- ControlTabWidget::saveSamplesBtnClicked: refuses (writing nothing) when
the two sequences differ in length, otherwise emits the record sequence.  The
state is returned unchanged: saving only reads the store. -/
def saveSamplesBtnClicked (s : WidgetState) : WidgetState × Option (List SampleRecord) :=
  if s.effector_wrt_world.length ≠ s.object_wrt_sensor.length then (s, none)
  else (s, some (serializeSamples s.effector_wrt_world s.object_wrt_sensor))

/-- The record loop of loadSamplesBtnClicked.  Per record, the
effector_wrt_world field is converted and appended first, then the
object_wrt_sensor field; a failing conversion throws YAML::Exception, which
aborts the loop at that point — everything appended so far stays.  Returns the
two accumulated lists and whether the whole file was consumed. -/
def loadSamplesLoop : List RawRecord → List Iso × List Iso × Bool
  | [] => ([], [], true)
  | r :: rest =>
    match r.effField with
    | none => ([], [], false)
    | some effL =>
      match r.objField with
      | none => ([isoFromRowMajor effL], [], false)
      | some objL =>
        let res := loadSamplesLoop rest
        (isoFromRowMajor effL :: res.1, isoFromRowMajor objL :: res.2.1, res.2.2)

/-- ControlTabWidget::loadSamplesBtnClicked.  The input none models a
cancelled file dialog (no mutation).  Otherwise both sequences are cleared
BEFORE parsing begins (lines 860-861); the loop then appends records as they
parse.  Only on full success do the setMax/setValue calls on the progress bar
run; a YAML::Exception mid-file is caught and reported (the returned Bool is
false), with the partially filled store left in place. -/
def loadSamplesBtnClicked (s : WidgetState) (file : Option (List RawRecord)) :
    WidgetState × Bool :=
  match file with
  | none => (s, true)
  | some records =>
    let cleared := { s with effector_wrt_world := ([] : List Iso)
                            object_wrt_sensor := ([] : List Iso) }
    let res := loadSamplesLoop records
    let filled := { cleared with effector_wrt_world := res.1
                                 object_wrt_sensor := res.2.1 }
    if res.2.2 then
      let withMax := progressSetMax filled records.length
      let v := progressSetValue withMax.auto_progress_max withMax.auto_progress_value (records.length : ℤ)
      ({ withMax with auto_progress_value := v }, true)
    else (filled, false)

/-- ControlTabWidget::deleteLatestSampleBtnClicked.  The guard is the
emptiness of joint_states_ (not of the pose-sample sequences); when it passes,
the last element of both pose sequences and of the joint-state list is
removed and the progress maximum becomes the new joint-state count.  The
returned Option String is the warning dialog text, some exactly on refusal.
pop_back on an empty vector is undefined behavior in C++; it is totalized
here as dropLast [] = []. -/
def deleteLatestSampleBtnClicked (s : WidgetState) : WidgetState × Option String :=
  if s.joint_states.isEmpty then
    (s, some "Cannot delete last sample, list is already empty.")
  else
    let popped := { s with effector_wrt_world := s.effector_wrt_world.dropLast
                           object_wrt_sensor := s.object_wrt_sensor.dropLast
                           joint_states := s.joint_states.dropLast }
    (progressSetMax popped popped.joint_states.length, none)

/-- ControlTabWidget::clearSamplesBtnClicked: empties both pose sequences and
the joint-state list (joint_names_ is kept) and resets the progress bar. -/
def clearSamplesBtnClicked (s : WidgetState) : WidgetState :=
  let cleared := { s with effector_wrt_world := ([] : List Iso)
                          object_wrt_sensor := ([] : List Iso)
                          joint_states := ([] : List (List ℚ)) }
  let withMax := progressSetMax cleared 0
  let v := progressSetValue withMax.auto_progress_max withMax.auto_progress_value 0
  { withMax with auto_progress_value := v }

/-- The std::getline tokenization loop of ControlTabWidget::parseSolverName.
getline succeeds whenever it extracts at least one character or consumes a
delimiter, and fails only on immediate end of input; hence a trailing
delimiter does not produce a trailing empty token, and the empty string
produces no token at all. -/
def getlineTokens (d : Char) : List Char → List (List Char)
  | [] => []
  | c :: cs =>
    if c = d then [] :: getlineTokens d cs
    else
      match getlineTokens d cs with
      | [] => [[c]]
      | t :: ts => (c :: t) :: ts

/-- ControlTabWidget::parseSolverName: splits on the delimiter via std::getline
and returns tokens.back().  back() on an empty vector is undefined behavior in
C++, modelled as none (which happens exactly for the empty input string). -/
def parseSolverName (solver_name : String) (delimiter : Char) : Option String :=
  ((getlineTokens delimiter solver_name.data).getLast?).map String.mk

/-- Plain split of a character list on a delimiter, keeping every (possibly
empty) part; always non-empty. -/
def splitAllChars (d : Char) : List Char → List (List Char)
  | [] => [[]]
  | c :: cs =>
    if c = d then [] :: splitAllChars d cs
    else
      match splitAllChars d cs with
      | [] => [[c]]
      | t :: ts => (c :: t) :: ts

/-- Modelled from the claim wording for comparison with parseSolverName: the
substring of the name after the last occurrence of the delimiter, the whole
string when the delimiter is absent. -/
def suffixAfterLastDelim (s : String) (d : Char) : String :=
  String.mk (((splitAllChars d s.data).getLast?).getD s.data)

/-- The external collaborators consumed by solveCameraRobotPose: whether a
solver plugin instance exists (solver_ != nullptr), the current text of the
solver combo box, the plugin solve call (returning the solver-reported error
message on failure), getCameraRobotPose (folded into the ok result),
getReprojectionError, the two frame names used for publishing, and the result
of tf_tools_->publishTransform. -/
structure SolveEnv where
  solverPresent : Bool
  solverText : String
  solveFn : List Iso → List Iso → SensorMountType → String → Except String Iso
  reprojFn : List Iso → List Iso → Iso → SensorMountType → ℚ × ℚ
  fromFrame : String
  toFrame : String
  publishOk : Bool

/-- Result of a solveCameraRobotPose call: the returned Bool, the updated
widget state, and the text of the warning dialog when one is shown. -/
structure SolveOutcome where
  ok : Bool
  state : WidgetState
  dialog : Option String

/-- The reprojection-error label text set on a successful solve. -/
def reprojText (e : ℚ × ℚ) : String :=
  "Reprojection error:\n" ++ toString e.1 ++ " m, " ++ toString e.2 ++ " rad"

/-- ControlTabWidget::solveCameraRobotPose.  With a solver present and a
non-empty combo text, the plugin solve is invoked on the two sample sequences,
the mount type and the solver name parsed from the combo text with delimiter
slash (for non-empty text parseSolverName always yields a token, so the getD
default is never taken).  On success camera_robot_pose_ and the
reprojection-error label are updated and the transform is published when both
frame names are non-empty (the return value is then publishTransform's).  On
solver failure the state is left untouched and the dialog shows the string
"Error: " prepended to the solver-reported message. -/
def solveCameraRobotPose (env : SolveEnv) (s : WidgetState) : SolveOutcome :=
  if env.solverPresent = true ∧ env.solverText ≠ "" then
    match env.solveFn s.effector_wrt_world s.object_wrt_sensor s.sensor_mount_type
        ((parseSolverName env.solverText '/').getD "") with
    | Except.ok pose =>
      let reproj := env.reprojFn s.effector_wrt_world s.object_wrt_sensor pose s.sensor_mount_type
      let s2 := { s with camera_robot_pose := pose
                         reprojection_error_label := reprojText reproj }
      if env.fromFrame ≠ "" ∧ env.toFrame ≠ "" then
        ⟨env.publishOk, s2, none⟩
      else
        ⟨false, s2, some "Found camera pose but the base or sensor frame is undefined."⟩
    | Except.error error_message =>
      ⟨false, s, some ("Error: " ++ error_message)⟩
  else
    ⟨false, s, some "No available handeye calibration solver instance."⟩

/-- The external inputs of the take-sample path: the tf lookup result (none
models a TransformException), the frameNamesEmpty() check (frameNamesOk is
true when all four frame names are non-empty), and the planning scene monitor
when available, supplying the active joint names of the current group and the
current joint values. -/
structure SampleEnv where
  lookup : Option (TfMsg × TfMsg)
  frameNamesOk : Bool
  psm : Option (List String × List ℚ)

/-- The joint-state capture block at the end of takeSampleBtnClicked: when a
planning scene monitor is available, the stored joint names are cleared
together with all recorded joint states if they differ from the active joint
names of the group; then, if the current value vector matches the name count,
it is appended and the progress maximum becomes the new count. -/
def captureJointState (psm : Option (List String × List ℚ)) (s : WidgetState) : WidgetState :=
  match psm with
  | none => s
  | some (names, state_joint_values) =>
    let s1 := if s.joint_names.length ≠ names.length ∨ s.joint_names ≠ names then
                { s with joint_names := ([] : List String)
                         joint_states := ([] : List (List ℚ)) }
              else s
    if names.length = state_joint_values.length then
      let s2 := { s1 with joint_names := names
                          joint_states := s1.joint_states ++ [state_joint_values] }
      progressSetMax s2 s2.joint_states.length
    else s1

/-- ControlTabWidget::takeSampleBtnClicked: abort on empty frame names or an
inadmissible/failed sample; then, when both sequences have equal length
exceeding 4, re-solve, aborting on solve failure; finally capture the current
joint state. -/
def takeSampleBtnClicked (minRotTrace : ℚ) (senv : SampleEnv) (env : SolveEnv)
    (s : WidgetState) : WidgetState :=
  if senv.frameNamesOk = false then s
  else
    let taken := takeTransformSamples minRotTrace s senv.lookup
    if taken.1 = false then taken.2
    else
      let s1 := taken.2
      if s1.effector_wrt_world.length = s1.object_wrt_sensor.length ∧
          4 < s1.effector_wrt_world.length then
        let out := solveCameraRobotPose env s1
        if out.ok = false then out.state
        else captureJointState senv.psm out.state
      else captureJointState senv.psm s1

/-- The external collaborators of computePlan: planning scene monitor
presence, move_group_ presence, the active joints of the move group, and
whether move_group_->plan succeeds. -/
structure PlanEnv where
  psmPresent : Bool
  mgPresent : Bool
  mgActiveJoints : List String
  planSucceeds : Bool

/-- ControlTabWidget::computePlan.  The source assigns planning_res_ = SUCCESS
on entry and the checks then run in source order, each early return setting
its failure code: progress maximum out of step with the joint-state count or
progress already at the maximum (FAILURE_NO_JOINT_STATE), invalid joint
states, missing planning scene monitor, missing move group, active-joint
mismatch; finally the plan request runs when the progress value is below the
joint-state count (the C++ comparison converts the int value to size_t, so a
negative value compares false), and the fall-through path keeps the SUCCESS
set on entry — here written as the final else branch. -/
def computePlan (s : WidgetState) (env : PlanEnv) : WidgetState :=
  if s.auto_progress_max ≠ s.joint_states.length ∨
      s.auto_progress_value = (s.auto_progress_max : ℤ) then
    { s with planning_res := PlanningResult.FAILURE_NO_JOINT_STATE }
  else if checkJointStates s = false then
    { s with planning_res := PlanningResult.FAILURE_INVALID_JOINT_STATE }
  else if env.psmPresent = false then
    { s with planning_res := PlanningResult.FAILURE_NO_PSM }
  else if env.mgPresent = false then
    { s with planning_res := PlanningResult.FAILURE_NO_MOVE_GROUP }
  else if env.mgActiveJoints ≠ s.joint_names then
    { s with planning_res := PlanningResult.FAILURE_WRONG_MOVE_GROUP }
  else if 0 ≤ s.auto_progress_value ∧
      s.auto_progress_value < (s.joint_states.length : ℤ) then
    { s with planning_res := if env.planSucceeds then PlanningResult.SUCCESS
                             else PlanningResult.FAILURE_PLAN_FAILED }
  else { s with planning_res := PlanningResult.SUCCESS }

/-- ControlTabWidget::computeExecution: when a move group and a current plan
exist, planning_res_ becomes SUCCESS or FAILURE_PLAN_FAILED according to the
execution outcome. -/
def computeExecution (s : WidgetState) (mgAndPlanPresent : Bool) (execSucceeds : Bool) :
    WidgetState :=
  if mgAndPlanPresent then
    { s with planning_res := if execSucceeds then PlanningResult.SUCCESS
                             else PlanningResult.FAILURE_PLAN_FAILED }
  else s

/-- ControlTabWidget::executeFinished: on SUCCESS the progress value advances
by one, a transform sample is taken when the frame names are set (its result
is ignored), and a re-solve runs when both sequences have equal length
exceeding 4. -/
def executeFinished (minRotTrace : ℚ) (senv : SampleEnv) (env : SolveEnv)
    (s : WidgetState) : WidgetState :=
  if s.planning_res = PlanningResult.SUCCESS then
    let v := progressSetValue s.auto_progress_max s.auto_progress_value (s.auto_progress_value + 1)
    let s1 := { s with auto_progress_value := v }
    let s2 := if senv.frameNamesOk then (takeTransformSamples minRotTrace s1 senv.lookup).2 else s1
    if s2.effector_wrt_world.length = s2.object_wrt_sensor.length ∧
        4 < s2.effector_wrt_world.length then
      (solveCameraRobotPose env s2).state
    else s2
  else s

/-- Modelled from the claim wording for C7: the calibration result the
specification expects after a meaningful sample-set change — the pose the
configured solver reports on the current sample sequences (none when the
solver fails). -/
def specRecomputedPose (env : SolveEnv) (s : WidgetState) : Option Iso :=
  match env.solveFn s.effector_wrt_world s.object_wrt_sensor s.sensor_mount_type
      ((parseSolverName env.solverText '/').getD "") with
  | Except.ok pose => some pose
  | Except.error _ => none

/-- A transform message carrying the identity quaternion. -/
def msgId : TfMsg := ⟨⟨0, 0, 0, 1⟩, ![0, 0, 0]⟩

/-- The non-unit quaternion (x y z w) = (1 0 0 1), norm sqrt 2: after
normalization it is the rotation by 90 degrees about the x axis. -/
def qPre : Quat := ⟨1, 0, 0, 1⟩

/-- A transform message carrying the non-unit quaternion qPre. -/
def msgPre : TfMsg := ⟨qPre, ![0, 0, 0]⟩

/-- A store holding exactly one (identity) sample pair and no joint states. -/
def storeOneSample : WidgetState :=
  { initialWidgetState with effector_wrt_world := [isoId]
                            object_wrt_sensor := [isoId] }

/-- A raw sample-file record both of whose fields fail YAML conversion. -/
def badRecord : RawRecord := ⟨none, none⟩

/-- A raw sample-file record whose effector matrix parses but whose object
matrix fails YAML conversion. -/
def halfRecord : RawRecord := ⟨some (isoToRowMajor isoId), none⟩

/-- Whether both fields of a raw record convert successfully. -/
def RawRecord.good (r : RawRecord) : Bool :=
  r.effField.isSome && r.objField.isSome

/-- The effector transforms the load loop commits: one per record of the
longest all-good prefix of the file, plus one more when the first failing
record fails only in its object field (the source appends the effector
matrix before parsing the object matrix). -/
def committedEff (recs : List RawRecord) : List Iso :=
  (recs.takeWhile RawRecord.good).map (fun r => isoFromRowMajor (r.effField.getD [])) ++
    (match (recs.dropWhile RawRecord.good).head? with
     | some r => match r.effField with
                 | some l => [isoFromRowMajor l]
                 | none => []
     | none => [])

/-- The object transforms the load loop commits: one per record of the
longest all-good prefix of the file. -/
def committedObj (recs : List RawRecord) : List Iso :=
  (recs.takeWhile RawRecord.good).map (fun r => isoFromRowMajor (r.objField.getD []))

/-- A pure-translation pose, distinct from the identity. -/
def poseX : Iso :=
  ⟨Matrix.of ![![1, 0, 0], ![0, 1, 0], ![0, 0, 1]], ![1, 0, 0]⟩

/-- A store holding six identity sample pairs, six joint states and the
identity as its current calibration result. -/
def sixSampleState : WidgetState :=
  { initialWidgetState with effector_wrt_world := List.replicate 6 isoId
                            object_wrt_sensor := List.replicate 6 isoId
                            joint_names := ["j"]
                            joint_states := List.replicate 6 [0]
                            auto_progress_max := 6 }

/-- A solver environment whose plugin always reports the pose poseX. -/
def envSolveOk : SolveEnv :=
  ⟨true, "plug/alg", fun _ _ _ _ => Except.ok poseX, fun _ _ _ _ => (0, 0), "f", "t", true⟩

/-- A store holding four identity sample pairs and one joint state. -/
def fourSampleState : WidgetState :=
  { initialWidgetState with effector_wrt_world := List.replicate 4 isoId
                            object_wrt_sensor := List.replicate 4 isoId
                            joint_names := ["j"]
                            joint_states := [[0]]
                            auto_progress_max := 1 }

/-- A store with one recorded joint state and no pose samples. -/
def oneJointState : WidgetState :=
  { initialWidgetState with joint_names := ["j"]
                            joint_states := [[1]]
                            auto_progress_max := 1 }

/-- A solver environment whose plugin always fails with the message boom. -/
def envSolveFail : SolveEnv :=
  ⟨true, "plug/alg", fun _ _ _ _ => Except.error "boom", fun _ _ _ _ => (0, 0), "f", "t", true⟩

/-- The three recorded joint states of the sequencer scenario: progress 0 of
target 3. -/
def c9State : WidgetState :=
  { initialWidgetState with joint_names := ["j"]
                            joint_states := [[0], [1], [2]]
                            auto_progress_value := 0
                            auto_progress_max := 3 }

/-- Sequencer scenario collaborators: monitor and move group present, active
joints matching, planning always succeeding. -/
def c9PlanEnv : PlanEnv := ⟨true, true, ["j"], true⟩

/-- Sequencer scenario sample environment: frame names unset, so
executeFinished skips sample capture (the progress advance is unaffected). -/
def c9SampleEnv : SampleEnv := ⟨none, false, none⟩

/-- Sequencer scenario solver environment (never invoked: the store stays
below five samples). -/
def c9SolveEnv : SolveEnv :=
  ⟨false, "", fun _ _ _ _ => Except.error "", fun _ _ _ _ => (0, 0), "", "", true⟩

/-- One full auto-calibration cycle: plan, execute successfully, and run the
executeFinished callback. -/
def c9Cycle (s : WidgetState) : WidgetState :=
  executeFinished 3 c9SampleEnv c9SolveEnv (computeExecution (computePlan s c9PlanEnv) true true)

/-- A sample environment with valid frame names, an identity-rotation lookup
result and no planning scene monitor. -/
def senvFive : SampleEnv := ⟨some (msgId, msgId), true, none⟩

/-- Helper: the trace of the relative rotation is symmetric in its two
endpoints, because the rotation block of inverse(a) * b is transpose(a.lin)
* b.lin and a matrix and its transpose share their trace.  This identifies
the source's test (inverse(candidate) * prior) with the claim's direction
(inverse(prior) * candidate). -/
theorem trace_inverse_mul_comm (a b : Iso) :
    ((a.inverse.mul b).lin).trace = ((b.inverse.mul a).lin).trace := by
  show (a.lin.transpose * b.lin).trace = (b.lin.transpose * a.lin).trace
  rw [← Matrix.trace_transpose (a.lin.transpose * b.lin), Matrix.transpose_mul,
    Matrix.transpose_transpose]

/-- C1: takeTransformSamples accepts and appends the candidate pair exactly
when, for every previously stored sample of the respective stream, the
relative rotation inverse(prior) * candidate has angle at least MIN_ROTATION
(expressed through the trace correspondence, for every value of the
threshold parameter); both streams are checked, and on rejection nothing is
stored — the state is returned unchanged. -/
theorem takeTransformSamples_admissibility (minRotTrace : ℚ) (s : WidgetState)
    (cam eef : TfMsg) :
    ((takeTransformSamples minRotTrace s (some (cam, eef))).1 = true ↔
      ((∀ prior ∈ s.effector_wrt_world, relAngleAtLeastMin minRotTrace prior (msgToEigen eef)) ∧
       (∀ prior ∈ s.object_wrt_sensor, relAngleAtLeastMin minRotTrace prior (msgToEigen cam)))) ∧
    (takeTransformSamples minRotTrace s (some (cam, eef))).2 =
      (if (takeTransformSamples minRotTrace s (some (cam, eef))).1 then
        { s with effector_wrt_world := s.effector_wrt_world ++ [msgToEigen eef]
                 object_wrt_sensor := s.object_wrt_sensor ++ [msgToEigen cam] }
       else s) := by
  have key : ∀ (m : TfMsg) (prior : Iso),
      rotTooSimilar minRotTrace ((msgToEigen m).inverse.mul prior).lin = false ↔
        relAngleAtLeastMin minRotTrace prior (msgToEigen m) := by
    intro m prior
    simp [rotTooSimilar, relAngleAtLeastMin, trace_inverse_mul_comm, not_lt]
  by_cases h1 : s.effector_wrt_world.any
      (fun prior_tf => rotTooSimilar minRotTrace ((msgToEigen eef).inverse.mul prior_tf).lin)
  · constructor
    · simp only [takeTransformSamples, h1]
      constructor
      · intro hfalse; cases hfalse
      · rintro ⟨ha, _⟩
        rcases List.any_eq_true.mp h1 with ⟨p, hp, hsim⟩
        have := (key eef p).mpr (ha p hp)
        rw [this] at hsim; cases hsim
    · simp only [takeTransformSamples, h1]
      rfl
  · by_cases h2 : s.object_wrt_sensor.any
        (fun prior_tf => rotTooSimilar minRotTrace ((msgToEigen cam).inverse.mul prior_tf).lin)
    · constructor
      · simp only [takeTransformSamples, h1, h2]
        constructor
        · intro hfalse; simp at hfalse
        · rintro ⟨_, hb⟩
          rcases List.any_eq_true.mp h2 with ⟨p, hp, hsim⟩
          have := (key cam p).mpr (hb p hp)
          rw [this] at hsim; cases hsim
      · simp only [takeTransformSamples, h1, h2]; rfl
    · have ha : ∀ prior ∈ s.effector_wrt_world,
          relAngleAtLeastMin minRotTrace prior (msgToEigen eef) := by
        intro p hp
        have := List.any_eq_false.mp (Bool.eq_false_iff.mpr h1) p hp
        exact (key eef p).mp (Bool.eq_false_iff.mpr this)
      have hb : ∀ prior ∈ s.object_wrt_sensor,
          relAngleAtLeastMin minRotTrace prior (msgToEigen cam) := by
        intro p hp
        have := List.any_eq_false.mp (Bool.eq_false_iff.mpr h2) p hp
        exact (key cam p).mp (Bool.eq_false_iff.mpr this)
      constructor
      · simp only [takeTransformSamples, h1, h2]
        exact ⟨fun _ => ⟨ha, hb⟩, fun _ => rfl⟩
      · simp only [takeTransformSamples, h1, h2]
        rfl

/-- Witness for C1 at a concrete input: with no prior samples the candidate
identity pair is accepted. -/
theorem takeTransformSamples_admissibility_witness :
    (takeTransformSamples 3 initialWidgetState (some (msgId, msgId))).1 = true :=
  (takeTransformSamples_admissibility 3 initialWidgetState msgId msgId).1.mpr
    ⟨by simp [initialWidgetState], by simp [initialWidgetState]⟩

/-- Helper: mapping a transform to its 16 row-major coefficients and back
recovers the transform exactly. -/
theorem isoFromRowMajor_isoToRowMajor (a : Iso) : isoFromRowMajor (isoToRowMajor a) = a := by
  have hl : (isoFromRowMajor (isoToRowMajor a)).lin = a.lin := by
    funext i j
    fin_cases i <;> fin_cases j <;>
      simp [isoFromRowMajor, isoToRowMajor, Matrix.of_apply]
  have ht : (isoFromRowMajor (isoToRowMajor a)).trans = a.trans := by
    funext i
    fin_cases i <;> simp [isoFromRowMajor, isoToRowMajor]
  cases h : isoFromRowMajor (isoToRowMajor a)
  cases a
  simp_all

/-- Helper: the load loop consumes the output of the serialization loop
fully and reproduces both sequences in order. -/
theorem loadSamplesLoop_serialize (es os : List Iso) (h : es.length = os.length) :
    loadSamplesLoop ((serializeSamples es os).map SampleRecord.toRaw) = (es, os, true) := by
  induction es generalizing os with
  | nil =>
    cases os with
    | nil => rfl
    | cons o os' => simp at h
  | cons e es' ih =>
    cases os with
    | nil => simp at h
    | cons o os' =>
      have h' : es'.length = os'.length := by simpa using h
      simp only [serializeSamples, List.map, loadSamplesLoop, SampleRecord.toRaw]
      rw [ih os' h']
      simp [isoFromRowMajor_isoToRowMajor]

/-- C2: for any non-empty sample set with aligned sequences, saving emits one
record per sample (keys effector_wrt_world / object_wrt_sensor, 16 row-major
coefficients each) and loading that file back into any widget state
reproduces both sequences exactly, in insertion order, with the load
reporting success.  Over the rational embedding the round trip is exact,
which subsumes the up-to-floating-point-rounding wording of the claim. -/
theorem saveSamples_loadSamples_roundtrip (s t : WidgetState)
    (h : s.effector_wrt_world.length = s.object_wrt_sensor.length)
    (hne : s.effector_wrt_world ≠ []) :
    (saveSamplesBtnClicked s).2 =
        some (serializeSamples s.effector_wrt_world s.object_wrt_sensor) ∧
    (loadSamplesBtnClicked t
        (some ((serializeSamples s.effector_wrt_world s.object_wrt_sensor).map
          SampleRecord.toRaw))).1.effector_wrt_world = s.effector_wrt_world ∧
    (loadSamplesBtnClicked t
        (some ((serializeSamples s.effector_wrt_world s.object_wrt_sensor).map
          SampleRecord.toRaw))).1.object_wrt_sensor = s.object_wrt_sensor ∧
    (loadSamplesBtnClicked t
        (some ((serializeSamples s.effector_wrt_world s.object_wrt_sensor).map
          SampleRecord.toRaw))).2 = true := by
  refine ⟨?_, ?_⟩
  · simp [saveSamplesBtnClicked, h]
  · simp only [loadSamplesBtnClicked, loadSamplesLoop_serialize _ _ h]
    simp [progressSetMax, progressSetValue]

/-- Witness for C2 at a concrete one-sample store. -/
theorem saveSamples_loadSamples_roundtrip_witness :
    (storeOneSample.effector_wrt_world.length = storeOneSample.object_wrt_sensor.length ∧
     storeOneSample.effector_wrt_world ≠ []) ∧
    (loadSamplesBtnClicked initialWidgetState
        (some ((serializeSamples storeOneSample.effector_wrt_world
          storeOneSample.object_wrt_sensor).map
          SampleRecord.toRaw))).1.effector_wrt_world = storeOneSample.effector_wrt_world :=
  ⟨⟨rfl, by decide⟩,
   (saveSamples_loadSamples_roundtrip storeOneSample initialWidgetState rfl (by decide)).2.1⟩

/-- C3 (code bug): at the failing input, a transform message carrying the
non-unit quaternion (1 0 0 1), the sample is accepted and the transform
pushed into the store is the Eigen conversion of the quaternion BEFORE
renormalization (entry (1,1) is -1), not the rotation of the normalized
quaternion demanded by the claim and by the source comment (entry (1,1)
would be 0): the source converts to Eigen form at lines 375-377 and only
then renormalizes the message copies at lines 401-408, which feed nothing
but the tree view. -/
theorem takeTransformSamples_stores_prenormalized_rotation :
    (takeTransformSamples 3 initialWidgetState (some (msgPre, msgPre))).1 = true ∧
    (takeTransformSamples 3 initialWidgetState
        (some (msgPre, msgPre))).2.effector_wrt_world = [msgToEigen msgPre] ∧
    (msgToEigen msgPre).lin 1 1 = -1 ∧
    quatToRotOfNormalized msgPre.q 1 1 = 0 ∧
    (msgToEigen msgPre).lin ≠ quatToRotOfNormalized msgPre.q := by
  have h1 : (msgToEigen msgPre).lin 1 1 = -1 := by
    norm_num [msgToEigen, quatToRot, msgPre, qPre, Matrix.of_apply]
  have h2 : quatToRotOfNormalized msgPre.q 1 1 = 0 := by
    norm_num [quatToRotOfNormalized, quatNormSq, msgPre, qPre, Matrix.of_apply]
  refine ⟨rfl, rfl, h1, h2, ?_⟩
  intro hcontra
  have := congrFun (congrFun hcontra 1) 1
  rw [h1, h2] at this
  exact absurd this (by norm_num)

/-- Helper: the load loop commits exactly the records of the longest all-good
prefix (plus a dangling effector matrix when the first failure is in an
object field) and succeeds exactly when every record parses. -/
theorem loadSamplesLoop_eq_committed (recs : List RawRecord) :
    loadSamplesLoop recs = (committedEff recs, committedObj recs, recs.all RawRecord.good) := by
  induction recs with
  | nil => rfl
  | cons r rest ih =>
    cases heff : r.effField with
    | none =>
      have hg : RawRecord.good r = false := by simp [RawRecord.good, heff]
      simp [loadSamplesLoop, heff, committedEff, committedObj, List.takeWhile_cons, List.dropWhile_cons, hg]
    | some effL =>
      cases hobj : r.objField with
      | none =>
        have hg : RawRecord.good r = false := by simp [RawRecord.good, heff, hobj]
        simp [loadSamplesLoop, heff, hobj, committedEff, committedObj,
          List.takeWhile_cons, List.dropWhile_cons, hg]
      | some objL =>
        have hg : RawRecord.good r = true := by simp [RawRecord.good, heff, hobj]
        simp [loadSamplesLoop, heff, hobj, committedEff, committedObj,
          List.takeWhile_cons, List.dropWhile_cons, hg, ih, List.all_cons]

/-- C4 (amended): loading clears the store before parsing and commits every
record parsed before the first failure; a malformed record surfaces a parse
error (the returned flag is false exactly when some record fails), with the
partially committed prefix — not the prior contents — left in the store. -/
theorem loadSamples_commits_parsed_records (s : WidgetState) (recs : List RawRecord) :
    (loadSamplesBtnClicked s (some recs)).1.effector_wrt_world = committedEff recs ∧
    (loadSamplesBtnClicked s (some recs)).1.object_wrt_sensor = committedObj recs ∧
    ((loadSamplesBtnClicked s (some recs)).2 = true ↔
      ∀ r ∈ recs, RawRecord.good r = true) := by
  have hload := loadSamplesLoop_eq_committed recs
  by_cases hall : recs.all RawRecord.good = true
  · refine ⟨?_, ?_, ?_⟩
    · simp [loadSamplesBtnClicked, hload, hall, progressSetMax, progressSetValue]
    · simp [loadSamplesBtnClicked, hload, hall, progressSetMax, progressSetValue]
    · simp [loadSamplesBtnClicked, hload, hall, progressSetMax, progressSetValue]
      exact fun r hr => List.all_eq_true.mp hall r hr
  · have hfalse : recs.all RawRecord.good = false := Bool.eq_false_iff.mpr hall
    refine ⟨?_, ?_, ?_⟩
    · simp [loadSamplesBtnClicked, hload, hfalse]
    · simp [loadSamplesBtnClicked, hload, hfalse]
    · simp only [loadSamplesBtnClicked, hload, hfalse, Bool.false_eq_true, if_false,
        false_iff]
      intro hforall
      exact hall (List.all_eq_true.mpr hforall)

/-- Counterexample for C4: loading a file whose only record is malformed
reports failure, yet the store no longer holds its prior contents — the
claimed no-partial-mutation rollback does not happen. -/
theorem loadSamples_clears_prior_store_on_failure :
    (loadSamplesBtnClicked storeOneSample (some [badRecord])).2 = false ∧
    (loadSamplesBtnClicked storeOneSample (some [badRecord])).1.effector_wrt_world ≠
      storeOneSample.effector_wrt_world := by
  refine ⟨rfl, ?_⟩
  intro hcontra
  have : ([] : List Iso) = [isoId] := hcontra
  cases this

/-- Helper: a solve invocation never touches the pose-sample sequences or
the joint-state bookkeeping. -/
theorem solveCameraRobotPose_preserves_store (env : SolveEnv) (s : WidgetState) :
    (solveCameraRobotPose env s).state.effector_wrt_world = s.effector_wrt_world ∧
    (solveCameraRobotPose env s).state.object_wrt_sensor = s.object_wrt_sensor ∧
    (solveCameraRobotPose env s).state.joint_states = s.joint_states ∧
    (solveCameraRobotPose env s).state.joint_names = s.joint_names := by
  unfold solveCameraRobotPose
  by_cases h : env.solverPresent = true ∧ env.solverText ≠ ""
  · rw [if_pos h]
    cases env.solveFn s.effector_wrt_world s.object_wrt_sensor s.sensor_mount_type
        ((parseSolverName env.solverText '/').getD "") with
    | ok pose =>
      by_cases h2 : env.fromFrame ≠ "" ∧ env.toFrame ≠ ""
      · simp [h2]
      · simp [h2]
    | error msg => exact ⟨rfl, rfl, rfl, rfl⟩
  · rw [if_neg h]
    exact ⟨rfl, rfl, rfl, rfl⟩

/-- Helper: the joint-state capture block never touches the pose-sample
sequences or the stored calibration result. -/
theorem captureJointState_preserves_store (psm : Option (List String × List ℚ))
    (s : WidgetState) :
    (captureJointState psm s).effector_wrt_world = s.effector_wrt_world ∧
    (captureJointState psm s).object_wrt_sensor = s.object_wrt_sensor ∧
    (captureJointState psm s).camera_robot_pose = s.camera_robot_pose ∧
    (captureJointState psm s).reprojection_error_label = s.reprojection_error_label := by
  cases psm with
  | none => exact ⟨rfl, rfl, rfl, rfl⟩
  | some p =>
    obtain ⟨names, vals⟩ := p
    simp only [captureJointState]
    by_cases h1 : s.joint_names.length ≠ names.length ∨ s.joint_names ≠ names
    · rw [if_pos h1]
      by_cases h2 : names.length = vals.length
      · rw [if_pos h2]
        exact ⟨rfl, rfl, rfl, rfl⟩
      · rw [if_neg h2]
        exact ⟨rfl, rfl, rfl, rfl⟩
    · rw [if_neg h1]
      by_cases h2 : names.length = vals.length
      · rw [if_pos h2]
        exact ⟨rfl, rfl, rfl, rfl⟩
      · rw [if_neg h2]
        exact ⟨rfl, rfl, rfl, rfl⟩

/-- Helper: takeTransformSamples either leaves the state unchanged or
appends one converted transform to each sequence. -/
theorem takeTransformSamples_state_cases (mrt : ℚ) (s : WidgetState)
    (L : Option (TfMsg × TfMsg)) :
    (takeTransformSamples mrt s L).2 = s ∨
    ∃ cam eef, L = some (cam, eef) ∧
      (takeTransformSamples mrt s L).2 =
        { s with effector_wrt_world := s.effector_wrt_world ++ [msgToEigen eef]
                 object_wrt_sensor := s.object_wrt_sensor ++ [msgToEigen cam] } := by
  cases L with
  | none => exact Or.inl rfl
  | some p =>
    obtain ⟨cam, eef⟩ := p
    by_cases h1 : s.effector_wrt_world.any
        (fun prior_tf => rotTooSimilar mrt ((msgToEigen eef).inverse.mul prior_tf).lin)
    · exact Or.inl (by simp [takeTransformSamples, h1])
    · by_cases h2 : s.object_wrt_sensor.any
          (fun prior_tf => rotTooSimilar mrt ((msgToEigen cam).inverse.mul prior_tf).lin)
      · exact Or.inl (by simp [takeTransformSamples, h1, h2])
      · exact Or.inr ⟨cam, eef, rfl, by simp [takeTransformSamples, h1, h2]⟩

/-- Helper: the take-sample button leaves the pose sequences as
takeTransformSamples left them (or untouched when frame names are empty). -/
theorem takeSampleBtnClicked_store_cases (mrt : ℚ) (senv : SampleEnv) (env : SolveEnv)
    (s : WidgetState) :
    ((takeSampleBtnClicked mrt senv env s).effector_wrt_world = s.effector_wrt_world ∧
     (takeSampleBtnClicked mrt senv env s).object_wrt_sensor = s.object_wrt_sensor) ∨
    ((takeSampleBtnClicked mrt senv env s).effector_wrt_world =
        (takeTransformSamples mrt s senv.lookup).2.effector_wrt_world ∧
     (takeSampleBtnClicked mrt senv env s).object_wrt_sensor =
        (takeTransformSamples mrt s senv.lookup).2.object_wrt_sensor) := by
  simp only [takeSampleBtnClicked]
  by_cases hf : senv.frameNamesOk = false
  · rw [if_pos hf]
    exact Or.inl ⟨rfl, rfl⟩
  · rw [if_neg hf]
    by_cases ht : (takeTransformSamples mrt s senv.lookup).1 = false
    · rw [if_pos ht]
      exact Or.inr ⟨rfl, rfl⟩
    · rw [if_neg ht]
      by_cases hlen : (takeTransformSamples mrt s senv.lookup).2.effector_wrt_world.length =
            (takeTransformSamples mrt s senv.lookup).2.object_wrt_sensor.length ∧
          4 < (takeTransformSamples mrt s senv.lookup).2.effector_wrt_world.length
      · rw [if_pos hlen]
        by_cases hok : (solveCameraRobotPose env (takeTransformSamples mrt s senv.lookup).2).ok = false
        · rw [if_pos hok]
          exact Or.inr
            ⟨(solveCameraRobotPose_preserves_store env (takeTransformSamples mrt s senv.lookup).2).1,
             (solveCameraRobotPose_preserves_store env (takeTransformSamples mrt s senv.lookup).2).2.1⟩
        · rw [if_neg hok]
          have hcap := captureJointState_preserves_store senv.psm
            (solveCameraRobotPose env (takeTransformSamples mrt s senv.lookup).2).state
          have hsol := solveCameraRobotPose_preserves_store env
            (takeTransformSamples mrt s senv.lookup).2
          exact Or.inr ⟨hcap.1.trans hsol.1, hcap.2.1.trans hsol.2.1⟩
      · rw [if_neg hlen]
        have hcap := captureJointState_preserves_store senv.psm
          (takeTransformSamples mrt s senv.lookup).2
        exact Or.inr ⟨hcap.1, hcap.2.1⟩

/-- Helper: the load loop commits either equally many effector and object
transforms or exactly one more effector transform. -/
theorem loadSamplesLoop_length_cases (recs : List RawRecord) :
    (loadSamplesLoop recs).1.length = (loadSamplesLoop recs).2.1.length ∨
    (loadSamplesLoop recs).1.length = (loadSamplesLoop recs).2.1.length + 1 := by
  induction recs with
  | nil => exact Or.inl rfl
  | cons r rest ih =>
    cases heff : r.effField with
    | none => simp [loadSamplesLoop, heff]
    | some effL =>
      cases hobj : r.objField with
      | none => simp [loadSamplesLoop, heff, hobj]
      | some objL =>
        simp only [loadSamplesLoop, heff, hobj, List.length_cons]
        rcases ih with h | h
        · exact Or.inl (by omega)
        · exact Or.inr (by omega)

/-- C5 (amended): starting from aligned sequences, taking a sample, deleting
the latest sample and clearing preserve the equal-length alignment, and
saving does not mutate the state at all; loading, however, only guarantees
that the effector sequence is at most one element longer than the object
sequence — the one-longer case is real, as the counterexample shows. -/
theorem sampleStore_parallel_alignment (mrt : ℚ) (senv : SampleEnv) (env : SolveEnv)
    (s : WidgetState) (recs : List RawRecord)
    (h : s.effector_wrt_world.length = s.object_wrt_sensor.length) :
    ((takeSampleBtnClicked mrt senv env s).effector_wrt_world.length =
      (takeSampleBtnClicked mrt senv env s).object_wrt_sensor.length) ∧
    ((deleteLatestSampleBtnClicked s).1.effector_wrt_world.length =
      (deleteLatestSampleBtnClicked s).1.object_wrt_sensor.length) ∧
    ((clearSamplesBtnClicked s).effector_wrt_world.length =
      (clearSamplesBtnClicked s).object_wrt_sensor.length) ∧
    ((saveSamplesBtnClicked s).1 = s) ∧
    ((loadSamplesBtnClicked s (some recs)).1.effector_wrt_world.length =
        (loadSamplesBtnClicked s (some recs)).1.object_wrt_sensor.length ∨
     (loadSamplesBtnClicked s (some recs)).1.effector_wrt_world.length =
        (loadSamplesBtnClicked s (some recs)).1.object_wrt_sensor.length + 1) := by
  refine ⟨?_, ?_, ?_, ?_, ?_⟩
  · rcases takeSampleBtnClicked_store_cases mrt senv env s with ⟨he, ho⟩ | ⟨he, ho⟩
    · rw [he, ho]; exact h
    · rw [he, ho]
      rcases takeTransformSamples_state_cases mrt s senv.lookup with heq | ⟨cam, eef, _, heq⟩
      · rw [heq]; exact h
      · rw [heq]; simp [h]
  · by_cases hj : s.joint_states.isEmpty
    · simp [deleteLatestSampleBtnClicked, hj, h]
    · simp only [deleteLatestSampleBtnClicked, hj]
      simp [progressSetMax, List.length_dropLast, h]
  · rfl
  · by_cases hne : s.effector_wrt_world.length ≠ s.object_wrt_sensor.length
    · exact absurd h hne
    · simp [saveSamplesBtnClicked, hne]
  · rcases loadSamplesLoop_length_cases recs with hl | hl
    · left
      by_cases hcond : (loadSamplesLoop recs).2.2 = true
      · simp only [loadSamplesBtnClicked, if_pos hcond]
        exact hl
      · simp only [loadSamplesBtnClicked, if_neg hcond]
        exact hl
    · right
      by_cases hcond : (loadSamplesLoop recs).2.2 = true
      · simp only [loadSamplesBtnClicked, if_pos hcond]
        exact hl
      · simp only [loadSamplesBtnClicked, if_neg hcond]
        exact hl

/-- Counterexample for C5: a file whose single record has a parsable
effector matrix but a malformed object field loads one effector transform
and zero object transforms, breaking the alignment the claim says every
operation preserves or rolls back. -/
theorem loadSamples_breaks_alignment :
    (loadSamplesBtnClicked initialWidgetState (some [halfRecord])).2 = false ∧
    (loadSamplesBtnClicked initialWidgetState
        (some [halfRecord])).1.effector_wrt_world.length = 1 ∧
    (loadSamplesBtnClicked initialWidgetState
        (some [halfRecord])).1.object_wrt_sensor.length = 0 := by
  exact ⟨rfl, rfl, rfl⟩

/-- Witness for C5 at the initial state. -/
theorem sampleStore_parallel_alignment_witness :
    (initialWidgetState.effector_wrt_world.length =
      initialWidgetState.object_wrt_sensor.length) ∧
    ((deleteLatestSampleBtnClicked initialWidgetState).1.effector_wrt_world.length =
      (deleteLatestSampleBtnClicked initialWidgetState).1.object_wrt_sensor.length) :=
  ⟨rfl, (sampleStore_parallel_alignment 3 c9SampleEnv c9SolveEnv initialWidgetState [] rfl).2.1⟩

/-- Helper: when takeTransformSamples accepts, the new state is the old one
with the two converted transforms appended. -/
theorem takeTransformSamples_accepted_state (mrt : ℚ) (s : WidgetState) (cam eef : TfMsg)
    (hacc : (takeTransformSamples mrt s (some (cam, eef))).1 = true) :
    (takeTransformSamples mrt s (some (cam, eef))).2 =
      { s with effector_wrt_world := s.effector_wrt_world ++ [msgToEigen eef]
               object_wrt_sensor := s.object_wrt_sensor ++ [msgToEigen cam] } := by
  by_cases h1 : s.effector_wrt_world.any
      (fun prior_tf => rotTooSimilar mrt ((msgToEigen eef).inverse.mul prior_tf).lin)
  · exfalso
    simp [takeTransformSamples, h1] at hacc
  · by_cases h2 : s.object_wrt_sensor.any
        (fun prior_tf => rotTooSimilar mrt ((msgToEigen cam).inverse.mul prior_tf).lin)
    · exfalso
      simp [takeTransformSamples, h1, h2] at hacc
    · simp [takeTransformSamples, h1, h2]

/-- C6 (amended): the delete-latest refusal dialog appears exactly when the
recorded joint-state list is empty — not when the pose-sample sequences are
empty; when the guard passes, the last element of both pose sequences and of
the joint-state list is removed, and delete-latest right after an accepting
takeTransformSamples restores both prior pose sequences provided a joint
state was already recorded. -/
theorem deleteLatest_guard_and_pop (mrt : ℚ) (s : WidgetState) (cam eef : TfMsg) :
    (((deleteLatestSampleBtnClicked s).2 ≠ none) ↔ s.joint_states = []) ∧
    (s.joint_states ≠ [] →
      (deleteLatestSampleBtnClicked s).1.effector_wrt_world =
          s.effector_wrt_world.dropLast ∧
      (deleteLatestSampleBtnClicked s).1.object_wrt_sensor =
          s.object_wrt_sensor.dropLast ∧
      (deleteLatestSampleBtnClicked s).1.joint_states = s.joint_states.dropLast) ∧
    (s.joint_states ≠ [] →
      (takeTransformSamples mrt s (some (cam, eef))).1 = true →
      (deleteLatestSampleBtnClicked
          (takeTransformSamples mrt s (some (cam, eef))).2).1.effector_wrt_world =
        s.effector_wrt_world ∧
      (deleteLatestSampleBtnClicked
          (takeTransformSamples mrt s (some (cam, eef))).2).1.object_wrt_sensor =
        s.object_wrt_sensor) := by
  refine ⟨?_, ?_, ?_⟩
  · by_cases hj : s.joint_states.isEmpty
    · simp only [deleteLatestSampleBtnClicked, if_pos hj]
      simpa using List.isEmpty_iff.mp hj
    · simp only [deleteLatestSampleBtnClicked, if_neg hj]
      simp only [ne_eq, not_true_eq_false, iff_false]
      simpa using hj
  · intro hne
    have hj : ¬s.joint_states.isEmpty := by simpa using hne
    simp only [deleteLatestSampleBtnClicked, if_neg hj]
    exact ⟨rfl, rfl, rfl⟩
  · intro hne hacc
    rw [takeTransformSamples_accepted_state mrt s cam eef hacc]
    have hj : ¬(s.joint_states.isEmpty) := by simpa using hne
    simp only [deleteLatestSampleBtnClicked, if_neg hj]
    exact ⟨List.dropLast_concat, List.dropLast_concat⟩

/-- Counterexample for C6: with one stored pose-sample pair but no recorded
joint state, delete-latest refuses (dialog shown, state unchanged) even
though pose samples exist, contradicting the claim that the failure happens
exactly when no pose samples exist. -/
theorem deleteLatest_refuses_nonempty_store :
    storeOneSample.effector_wrt_world ≠ [] ∧
    (deleteLatestSampleBtnClicked storeOneSample).2 ≠ none ∧
    (deleteLatestSampleBtnClicked storeOneSample).1 = storeOneSample := by
  refine ⟨?_, ?_, rfl⟩
  · intro hcontra; cases hcontra
  · intro hcontra; cases hcontra

/-- Witness for C6: append then delete at a concrete one-joint-state store
restores the (empty) pose sequences. -/
theorem deleteLatest_guard_and_pop_witness :
    oneJointState.joint_states ≠ [] ∧
    (takeTransformSamples 3 oneJointState (some (msgId, msgId))).1 = true ∧
    (deleteLatestSampleBtnClicked
        (takeTransformSamples 3 oneJointState (some (msgId, msgId))).2).1.effector_wrt_world =
      oneJointState.effector_wrt_world :=
  ⟨by decide, rfl,
   ((deleteLatest_guard_and_pop 3 oneJointState msgId msgId).2.2 (by decide) rfl).1⟩


/-- C7 (amended): deleting the latest sample and loading samples leave the
stored calibration result (camera_robot_pose_ and the reprojection-error
label) untouched — no recompute, no clearing; the result is recomputed on
the take-sample path when the appended store has aligned length above 4, a
solver is selected and the plugin solve succeeds, in which case the stored
pose becomes the solver output. -/
theorem calibrationResult_recompute_policy (mrt : ℚ) (senv : SampleEnv) (env : SolveEnv)
    (s : WidgetState) (file : Option (List RawRecord)) (pose : Iso) :
    ((deleteLatestSampleBtnClicked s).1.camera_robot_pose = s.camera_robot_pose ∧
     (deleteLatestSampleBtnClicked s).1.reprojection_error_label =
       s.reprojection_error_label) ∧
    ((loadSamplesBtnClicked s file).1.camera_robot_pose = s.camera_robot_pose ∧
     (loadSamplesBtnClicked s file).1.reprojection_error_label =
       s.reprojection_error_label) ∧
    (senv.frameNamesOk = true →
     (takeTransformSamples mrt s senv.lookup).1 = true →
     (takeTransformSamples mrt s senv.lookup).2.effector_wrt_world.length =
       (takeTransformSamples mrt s senv.lookup).2.object_wrt_sensor.length →
     4 < (takeTransformSamples mrt s senv.lookup).2.effector_wrt_world.length →
     env.solverPresent = true →
     env.solverText ≠ "" →
     env.solveFn (takeTransformSamples mrt s senv.lookup).2.effector_wrt_world
       (takeTransformSamples mrt s senv.lookup).2.object_wrt_sensor
       (takeTransformSamples mrt s senv.lookup).2.sensor_mount_type
       ((parseSolverName env.solverText '/').getD "") = Except.ok pose →
     (takeSampleBtnClicked mrt senv env s).camera_robot_pose = pose) := by
  refine ⟨?_, ?_, ?_⟩
  · by_cases hj : s.joint_states.isEmpty
    · rw [deleteLatestSampleBtnClicked, if_pos hj]
      exact ⟨rfl, rfl⟩
    · rw [deleteLatestSampleBtnClicked, if_neg hj]
      exact ⟨rfl, rfl⟩
  · cases file with
    | none => exact ⟨rfl, rfl⟩
    | some recs =>
      by_cases hcond : (loadSamplesLoop recs).2.2 = true
      · refine ⟨?_, ?_⟩ <;> simp [loadSamplesBtnClicked, if_pos hcond, progressSetMax]
      · refine ⟨?_, ?_⟩ <;> simp [loadSamplesBtnClicked, if_neg hcond, progressSetMax]
  · intro hfr hacc hlen h4 hsp hst hslv
    have hnotf : ¬(senv.frameNamesOk = false) := by simp [hfr]
    have hnott : ¬((takeTransformSamples mrt s senv.lookup).1 = false) := by simp [hacc]
    have hcond : (takeTransformSamples mrt s senv.lookup).2.effector_wrt_world.length =
        (takeTransformSamples mrt s senv.lookup).2.object_wrt_sensor.length ∧
        4 < (takeTransformSamples mrt s senv.lookup).2.effector_wrt_world.length := ⟨hlen, h4⟩
    simp only [takeSampleBtnClicked, if_neg hnotf, if_neg hnott, if_pos hcond]
    have hps : env.solverPresent = true ∧ env.solverText ≠ "" := ⟨hsp, hst⟩
    have hpose : (solveCameraRobotPose env
        (takeTransformSamples mrt s senv.lookup).2).state.camera_robot_pose = pose := by
      simp only [solveCameraRobotPose, if_pos hps, hslv]
      by_cases hfr2 : env.fromFrame ≠ "" ∧ env.toFrame ≠ ""
      · rw [if_pos hfr2]
      · rw [if_neg hfr2]
    by_cases hok : (solveCameraRobotPose env
        (takeTransformSamples mrt s senv.lookup).2).ok = false
    · rw [if_pos hok]
      exact hpose
    · rw [if_neg hok]
      exact (captureJointState_preserves_store senv.psm
        (solveCameraRobotPose env
          (takeTransformSamples mrt s senv.lookup).2).state).2.2.1.trans hpose

/-- Counterexample for C7: deleting from a six-sample store leaves five
samples (at least the recompute threshold) with a solver configured that
would report the pose poseX, yet the stored result is still the stale
identity, not the recomputed pose the claim requires. -/
theorem deleteLatest_leaves_stale_result :
    5 ≤ (deleteLatestSampleBtnClicked sixSampleState).1.effector_wrt_world.length ∧
    specRecomputedPose envSolveOk (deleteLatestSampleBtnClicked sixSampleState).1 = some poseX ∧
    (deleteLatestSampleBtnClicked sixSampleState).1.camera_robot_pose ≠ poseX := by
  refine ⟨by decide, rfl, ?_⟩
  intro hcontra
  exact absurd (congrFun (congrArg Iso.trans hcontra) 0) (by decide)

/-- Witness for C7: a fifth accepted sample on a four-sample store triggers
the re-solve and stores the solver-reported pose. -/
theorem calibrationResult_recompute_policy_witness :
    (takeTransformSamples 4 fourSampleState (some (msgId, msgId))).1 = true ∧
    (takeSampleBtnClicked 4 senvFive envSolveOk fourSampleState).camera_robot_pose = poseX := by
  have hsim : rotTooSimilar 4 ((msgToEigen msgId).inverse.mul isoId).lin = false := by
    simp only [rotTooSimilar, decide_eq_false_iff_not, not_lt]
    simp only [Iso.inverse, Iso.mul, msgToEigen, quatToRot, msgId, isoId, Matrix.trace,
      Matrix.diag, Fin.sum_univ_three, Matrix.mul_apply, Matrix.transpose_apply,
      Matrix.of_apply, Matrix.cons_val_zero, Matrix.cons_val_one, Matrix.head_cons,
      Matrix.cons_val_two, Matrix.tail_cons]
    norm_num
  have hacc : (takeTransformSamples 4 fourSampleState (some (msgId, msgId))).1 = true := by
    have h1 : fourSampleState.effector_wrt_world.any
        (fun prior_tf => rotTooSimilar 4 ((msgToEigen msgId).inverse.mul prior_tf).lin) = false := by
      show (List.replicate 4 isoId).any _ = false
      simp [List.replicate, hsim]
    have h2 : fourSampleState.object_wrt_sensor.any
        (fun prior_tf => rotTooSimilar 4 ((msgToEigen msgId).inverse.mul prior_tf).lin) = false := by
      show (List.replicate 4 isoId).any _ = false
      simp [List.replicate, hsim]
    simp [takeTransformSamples, h1, h2]
  have hstate := takeTransformSamples_accepted_state 4 fourSampleState msgId msgId hacc
  have hlen : (takeTransformSamples 4 fourSampleState (some (msgId, msgId))).2.effector_wrt_world.length =
      (takeTransformSamples 4 fourSampleState (some (msgId, msgId))).2.object_wrt_sensor.length := by
    rw [hstate]
    rfl
  have h4 : 4 < (takeTransformSamples 4 fourSampleState (some (msgId, msgId))).2.effector_wrt_world.length := by
    rw [hstate]
    decide
  refine ⟨hacc, ?_⟩
  exact (calibrationResult_recompute_policy 4 senvFive envSolveOk fourSampleState none poseX).2.2
    rfl hacc hlen h4 rfl (by decide) rfl

/-- C8: when the plugin solve fails, solveCameraRobotPose returns false, the
widget state — including the stored camera-robot pose and the
reprojection-error label — is exactly what it was, and the warning dialog
text is the string Error-colon-space followed by the solver-reported message
verbatim. -/
theorem solveFailure_surfaces_message_retains_result (env : SolveEnv) (s : WidgetState)
    (msg : String)
    (hsp : env.solverPresent = true)
    (hst : env.solverText ≠ "")
    (hslv : env.solveFn s.effector_wrt_world s.object_wrt_sensor s.sensor_mount_type
        ((parseSolverName env.solverText '/').getD "") = Except.error msg) :
    (solveCameraRobotPose env s).ok = false ∧
    (solveCameraRobotPose env s).state = s ∧
    (solveCameraRobotPose env s).dialog = some ("Error: " ++ msg) := by
  have hps : env.solverPresent = true ∧ env.solverText ≠ "" := ⟨hsp, hst⟩
  refine ⟨?_, ?_, ?_⟩ <;> simp [solveCameraRobotPose, if_pos hps, hslv]

/-- Witness for C8 with a solver that fails with the message boom. -/
theorem solveFailure_surfaces_message_retains_result_witness :
    (solveCameraRobotPose envSolveFail initialWidgetState).ok = false ∧
    (solveCameraRobotPose envSolveFail initialWidgetState).state = initialWidgetState ∧
    (solveCameraRobotPose envSolveFail initialWidgetState).dialog = some ("Error: " ++ "boom") :=
  solveFailure_surfaces_message_retains_result envSolveFail initialWidgetState "boom"
    rfl (by decide) rfl

/-- C9: computePlan reports FAILURE_NO_JOINT_STATE exactly when the progress
maximum disagrees with the recorded joint-state count or the progress value
has reached the maximum; and in the concrete scenario with three recorded
joint states, three successful plan-execute cycles advance the progress
value from 0 to 3, after which a fourth plan request fails with
FAILURE_NO_JOINT_STATE. -/
theorem computePlan_progress_bound (s : WidgetState) (env : PlanEnv) :
    ((computePlan s env).planning_res = PlanningResult.FAILURE_NO_JOINT_STATE ↔
      (s.auto_progress_max ≠ s.joint_states.length ∨
       s.auto_progress_value = (s.auto_progress_max : ℤ))) ∧
    (c9Cycle (c9Cycle (c9Cycle c9State))).auto_progress_value = 3 ∧
    (computePlan (c9Cycle (c9Cycle (c9Cycle c9State))) c9PlanEnv).planning_res =
      PlanningResult.FAILURE_NO_JOINT_STATE := by
  refine ⟨?_, by decide, by decide⟩
  by_cases h1 : s.auto_progress_max ≠ s.joint_states.length ∨
      s.auto_progress_value = (s.auto_progress_max : ℤ)
  · rw [computePlan, if_pos h1]
    simpa using h1
  · rw [computePlan, if_neg h1]
    by_cases h2 : checkJointStates s = false
    · rw [if_pos h2]
      simpa using h1
    · rw [if_neg h2]
      by_cases h3 : env.psmPresent = false
      · rw [if_pos h3]
        simpa using h1
      · rw [if_neg h3]
        by_cases h4 : env.mgPresent = false
        · rw [if_pos h4]
          simpa using h1
        · rw [if_neg h4]
          by_cases h5 : env.mgActiveJoints ≠ s.joint_names
          · rw [if_pos h5]
            simpa using h1
          · rw [if_neg h5]
            by_cases h6 : 0 ≤ s.auto_progress_value ∧
                s.auto_progress_value < (s.joint_states.length : ℤ)
            · rw [if_pos h6]
              cases hp : env.planSucceeds
              · simpa using h1
              · simpa using h1
            · rw [if_neg h6]
              simpa using h1

/-- Witness for C9: the fourth plan request of the scenario fails with
FAILURE_NO_JOINT_STATE, obtained from the characterization. -/
theorem computePlan_progress_bound_witness :
    (computePlan (c9Cycle (c9Cycle (c9Cycle c9State))) c9PlanEnv).planning_res =
      PlanningResult.FAILURE_NO_JOINT_STATE :=
  (computePlan_progress_bound (c9Cycle (c9Cycle (c9Cycle c9State))) c9PlanEnv).1.mpr
    (Or.inr (by decide))

/-- Helper: a plain split always produces at least one part. -/
theorem splitAllChars_ne_nil (d : Char) (cs : List Char) : splitAllChars d cs ≠ [] := by
  cases cs with
  | nil => simp [splitAllChars]
  | cons c cs' =>
    by_cases h : c = d
    · simp [splitAllChars, h]
    · simp only [splitAllChars, if_neg h]
      cases splitAllChars d cs' with
      | nil => simp
      | cons t ts => simp

/-- Helper: on a non-empty string that does not end with the delimiter, the
getline tokenization agrees with the plain split. -/
theorem getlineTokens_eq_splitAllChars (d : Char) (cs : List Char)
    (hne : cs ≠ []) (hlast : cs.getLast? ≠ some d) :
    getlineTokens d cs = splitAllChars d cs := by
  induction cs with
  | nil => exact absurd rfl hne
  | cons c cs' ih =>
    cases hcs : cs' with
    | nil =>
      subst hcs
      have hcd : ¬(c = d) := by
        simpa [List.getLast?] using hlast
      simp [getlineTokens, splitAllChars, hcd]
    | cons c2 cs2 =>
      subst hcs
      have hlast' : (c2 :: cs2).getLast? ≠ some d := by
        rwa [List.getLast?_cons_cons] at hlast
      have ihh := ih (by simp) hlast'
      by_cases h : c = d
      · rw [getlineTokens, splitAllChars, if_pos h, if_pos h, ihh]
      · rw [getlineTokens, splitAllChars, if_neg h, if_neg h, ihh]

/-- C10 (amended): parseSolverName of the empty string finds no token and
its tokens.back() is undefined behavior (modelled as none); for a non-empty
name that does not end with the delimiter it returns the substring after the
last occurrence of the delimiter (the whole string when the delimiter is
absent).  When the name ends with the delimiter the trailing empty token is
dropped by std::getline and the previous token is returned instead — see the
counterexample. -/
theorem parseSolverName_last_token (s : String) (d : Char) :
    (∀ e : Char, parseSolverName "" e = none) ∧
    (s.data ≠ [] → s.data.getLast? ≠ some d →
      parseSolverName s d = some (suffixAfterLastDelim s d)) := by
  refine ⟨fun e => rfl, fun hne hlast => ?_⟩
  rw [parseSolverName, getlineTokens_eq_splitAllChars d s.data hne hlast]
  rcases List.exists_cons_of_ne_nil (splitAllChars_ne_nil d s.data) with ⟨t, ts, hts⟩
  have hlastex : ∃ l, (splitAllChars d s.data).getLast? = some l := by
    rw [hts]
    exact ⟨(t :: ts).getLast (by simp), List.getLast?_eq_getLast _ _⟩
  rcases hlastex with ⟨l, hl⟩
  rw [hl, suffixAfterLastDelim, hl]
  rfl

/-- Counterexample for C10: on the input ab-slash the source returns ab,
while the substring after the last occurrence of the delimiter is the empty
string. -/
theorem parseSolverName_trailing_delimiter :
    parseSolverName "ab/" '/' = some "ab" ∧
    suffixAfterLastDelim "ab/" '/' = "" ∧
    parseSolverName "ab/" '/' ≠ some (suffixAfterLastDelim "ab/" '/') := by
  refine ⟨by decide, by decide, by decide⟩

/-- Witness for C10 at the empty string and at a well-formed solver name. -/
theorem parseSolverName_last_token_witness :
    (parseSolverName "" '/' = none) ∧
    (("plug/alg" : String).data ≠ [] ∧ ("plug/alg" : String).data.getLast? ≠ some '/') ∧
    parseSolverName "plug/alg" '/' = some (suffixAfterLastDelim "plug/alg" '/') :=
  ⟨(parseSolverName_last_token "" '/').1 '/',
   ⟨by decide, by decide⟩,
   (parseSolverName_last_token "plug/alg" '/').2 (by decide) (by decide)⟩
